import Mathlib

/-!
Verification of the crawl engine of the `info-aggeration` repository
against its natural-language specification.

The definitions below are a shallow embedding of the Go source:
* `internal/crawler/spider.go` — the `Spider` (collector setup, start URL
  dispatch, error/retry handler, field extraction),
* `internal/crawler/parser.go` — shared helpers,
* `internal/storage/storage.go` / `internal/storage/database.go` — the
  `FileStorage` and `DatabaseStorage` `Save` implementations.

Strings are modelled on their character lists (all data relevant to the
claims is ASCII, where Go's byte-wise operations and character-wise
operations coincide); machine integers never come close to overflow in
any claim, so Go `int` values are modelled as `Nat`/`Int`.
-/

namespace InfoAggeration

/-- Character-list lexicographic order, comparing code points.
Models Go's built-in string `<` (byte-wise lexicographic order), which
coincides with code-point order on ASCII data — every string compared by
the spider is a decimal digit string. -/
def goCharsLt : List Char → List Char → Bool
  | [], [] => false
  | [], _ :: _ => true
  | _ :: _, [] => false
  | a :: as, b :: bs =>
    if a.toNat < b.toNat then true
    else if b.toNat < a.toNat then false
    else goCharsLt as bs

/-- Go string comparison `a < b` (lexicographic). -/
def goStringLt (a b : String) : Bool :=
  goCharsLt a.data b.data

/-- `getRetryCount` from `internal/crawler/spider.go` (lines 260–273):
a hand-rolled three-case parse of the `Retry-Count` header. Any value
other than `"1"`, `"2"`, `"3"` — including `"4"` and above — resolves
to `0`. -/
def getRetryCount (retryStr : String) : Nat :=
  if retryStr = "" then 0
  else if retryStr = "1" then 1
  else if retryStr = "2" then 2
  else if retryStr = "3" then 3
  else 0

/-- One invocation of the `OnError` callback registered in
`setupHandlers` (`internal/crawler/spider.go`, lines 164–181), projected
to its retry decision.  `retryHeader` is the current value of the
`Retry-Count` request header (`""` when unset, as returned by
`Headers.Get`), `retries` is `config.Spider.Retries`.  The handler
compares the header against `fmt.Sprintf("%d", retries)` with Go string
`<`; on retry it stores `getRetryCount(header)+1` back into the header
and re-issues the request.  Returns `some newHeader` when the request is
retried and `none` when it is abandoned.  The handler body reads nothing
else of the failed response — in particular not its status code. -/
def spiderOnError (retryHeader : String) (retries : Nat) : Option String :=
  let retryCount := if retryHeader = "" then "0" else retryHeader
  if goStringLt retryCount (Nat.repr retries) then
    some (Nat.repr (getRetryCount retryCount + 1))
  else
    none

/-- The sequence of `Retry-Count` header values seen by successive
`OnError` invocations for a single request that fails on every attempt:
`retryTrace retries n` is the header before the `(n+1)`-th failure, or
`none` once the request has been abandoned. -/
def retryTrace (retries : Nat) : Nat → Option String
  | 0 => some ""
  | n + 1 =>
    match retryTrace retries n with
    | some h => spiderOnError h retries
    | none => none

/-- Split a character list at every occurrence of the separator
character.  Models Go's `strings.Split(s, sep)` for a one-character
separator: the separators themselves are dropped and empty fields are
kept, so the result always has one more element than there are
separators. -/
def splitChar (c : Char) : List Char → List (List Char)
  | [] => [[]]
  | x :: xs =>
    if x = c then [] :: splitChar c xs
    else
      match splitChar c xs with
      | [] => [[x]]
      | t :: ts => (x :: t) :: ts

/-- `getDomainFromURL` from `internal/crawler/spider.go` (lines
275–282): split the URL on `"/"` and return the third part (the host
for an `http://host/...` URL), or `"unknown"` when there are fewer than
three parts. -/
def getDomainFromURL (url : String) : String :=
  let parts := (splitChar '/' url.data).map List.asString
  if 3 ≤ parts.length then parts.getD 2 "unknown" else "unknown"

/-- `CrawlTaskRules` as used by `StartWithTask` and built in
`RunSiteTask` (`internal/api/site_controller.go`): the per-task rules
carried by a crawl task.  Note there is no allowed-domains or
forbidden-domains field on the run configuration. -/
structure CrawlTaskRules where
  maxDepth : Int
  maxPages : Int
  concurrent : Int
  delay : Int
deriving DecidableEq, Repr

/-- `models.CrawlTask` as consumed by `Spider.StartWithTask`
(`internal/crawler/spider.go`): the fields the spider reads. -/
structure CrawlTask where
  id : Int
  name : String
  baseURL : String
  startURLs : List String
  selectors : List (String × String)
  rules : CrawlTaskRules
deriving DecidableEq, Repr

/-- The admission filter of the colly collector configured by
`setupCollector` (`internal/crawler/spider.go`, lines 117–139):
`c.AllowedDomains = []string{getDomainFromURL(task.BaseURL)}` restricts
requests to URLs whose domain equals `allowed`, and
`c.AllowURLRevisit = false` makes the collector skip any URL it has
already visited in this run.  `collyDispatch allowed reqs visited` is
the list of URLs actually dispatched (fetched) when the URLs in `reqs`
are submitted with `Visit`, in submission order, starting from the
given visited set; colly performs the visited check and update under an
internal lock, so an interleaved concurrent submission is some `reqs`
order. -/
def collyDispatch (allowed : String) : List String → List String → List String
  | [], _ => []
  | u :: us, visited =>
    if getDomainFromURL u = allowed ∧ u ∉ visited then
      u :: collyDispatch allowed us (u :: visited)
    else
      collyDispatch allowed us visited

/-- The URLs dispatched by one task run.  `StartWithTask`
(`internal/crawler/spider.go`, lines 41–95) calls `c.Visit(url)` for
each start URL and then waits; the `OnHTML` handler only extracts data
and saves it — it never visits the discovered links — so the only
`Visit` calls of the run are the start URLs, each at depth 0. -/
def runDispatches (t : CrawlTask) : List String :=
  collyDispatch (getDomainFromURL t.baseURL) t.startURLs []

/-- The global spider section of the configuration
(`internal/config/config.go`, `SpiderConfig`). -/
structure SpiderConfig where
  userAgent : String
  timeout : Int
  concurrent : Int
  delay : Int
  retries : Nat
deriving DecidableEq, Repr

/-- The settings `StartWithTask` applies to the collector it creates:
`setupCollector` plus the `colly.LimitRule` installed at lines 63–77 of
`internal/crawler/spider.go`. -/
structure CollectorSettings where
  allowedDomains : List String
  allowURLRevisit : Bool
  parallelism : Int
  delayMs : Int
deriving DecidableEq, Repr

/-- The mutable fields of the `Spider` struct
(`internal/crawler/spider.go`, lines 20–28): the `running` flag and the
current collector (`none` until a run has created one). -/
structure SpiderState where
  running : Bool
  collector : Option CollectorSettings
deriving DecidableEq, Repr

/-- The observable outcome of one `StartWithTask` call: the returned
error, whether the call entered the running state (`s.running = true`
was executed), the spider state after the call returns, and the URLs
dispatched during the run. -/
structure StartResult where
  error : Option String
  enteredRunning : Bool
  state : SpiderState
  dispatched : List String
deriving DecidableEq, Repr

/-- `Spider.StartWithTask` (`internal/crawler/spider.go`, lines 41–95),
sequentialized: under the spider mutex, if a run is already in progress
the call returns an error and changes nothing; otherwise it creates and
configures a collector, sets `running`, visits every start URL, waits
for completion, and clears `running`.  The function performs no
validation of the task whatsoever. -/
def startWithTask (cfg : SpiderConfig) (s : SpiderState) (t : CrawlTask) :
    StartResult :=
  if s.running then
    { error := some "爬虫已在运行中"
      enteredRunning := false
      state := s
      dispatched := [] }
  else
    let concurrent := if 0 < t.rules.concurrent then t.rules.concurrent else cfg.concurrent
    let delay := if 0 < t.rules.delay then t.rules.delay else cfg.delay
    let c : CollectorSettings :=
      { allowedDomains := [getDomainFromURL t.baseURL]
        allowURLRevisit := false
        parallelism := concurrent
        delayMs := delay }
    { error := none
      enteredRunning := true
      state := { running := false, collector := some c }
      dispatched := runDispatches t }

/-- Drop leading and trailing whitespace from a character list. -/
def trimChars (l : List Char) : List Char :=
  ((l.dropWhile Char.isWhitespace).reverse.dropWhile Char.isWhitespace).reverse

/-- Go's `strings.TrimSpace` (whitespace-trimming; on the ASCII data of
the claims Go's Unicode space classification and `Char.isWhitespace`
agree). -/
def goTrimSpace (s : String) : String :=
  (trimChars s.data).asString

/-- Go's `strings.Split(s, ",")`: note `Split("", ",")` yields `[""]`,
matching `splitChar` on the empty list. -/
def goSplitComma (s : String) : List String :=
  (splitChar ',' s.data).map List.asString

/-- A fetched document, as the spider's extraction code observes it
through colly's `HTMLElement`: `texts` gives the result of
`e.ChildText(selector)` for the selectors that match something, and
`attrs` gives `e.ChildAttr(selector, attr)`; colly returns `""` for a
selector (or attribute) with no match. -/
structure HTMLDoc where
  texts : List (String × String)
  attrs : List ((String × String) × String)
deriving DecidableEq, Repr

/-- `e.ChildText(sel)`: the text of the first match of `sel`, or `""`. -/
def childText (d : HTMLDoc) (sel : String) : String :=
  ((d.texts.find? (fun p => p.1 = sel)).map (fun p => p.2)).getD ""

/-- `e.ChildAttr(sel, attr)`: the attribute of the first match, or `""`. -/
def childAttr (d : HTMLDoc) (sel attr : String) : String :=
  ((d.attrs.find? (fun p => p.1 = (sel, attr))).map (fun p => p.2)).getD ""

/-- The Go pattern `if sel, ok := selectors[k]; ok && sel != ""`:
the task-provided selector for field `k`, provided it is present and
non-empty. -/
def selOr (sels : List (String × String)) (k : String) : Option String :=
  match (sels.find? (fun p => p.1 = k)).map (fun p => p.2) with
  | some s => if s = "" then none else some s
  | none => none

/-- The item fields written by `extractData`.  A fresh `models.Item` has
zero values for all of them (`processPage` sets only `URL`, `Timestamp`
and `Source` before calling `extractData`). -/
structure ExtractedFields where
  title : String
  content : String
  description : String
  keywords : List String
  author : String
deriving DecidableEq, Repr

/-- `Spider.extractData` (`internal/crawler/spider.go`, lines 212–257),
restricted to the scalar fields and keywords (the remaining two blocks
of the function collect link and image URL lists via `ForEach` and
touch none of these fields).  Title falls back to the `title` element,
content to `body`; description, keywords and author are extracted only
when a non-empty task selector is configured, else left at their zero
values; no publish date is extracted.  No branch can fail. -/
def extractData (d : HTMLDoc) (sels : List (String × String)) :
    ExtractedFields :=
  { title :=
      match selOr sels "title" with
      | some sel => goTrimSpace (childText d sel)
      | none => goTrimSpace (childText d "title")
    content :=
      match selOr sels "content" with
      | some sel => goTrimSpace (childText d sel)
      | none => goTrimSpace (childText d "body")
    description :=
      match selOr sels "description" with
      | some sel => goTrimSpace (childAttr d sel "content")
      | none => ""
    keywords :=
      match selOr sels "keywords" with
      | some sel => goSplitComma (goTrimSpace (childAttr d sel "content"))
      | none => []
    author :=
      match selOr sels "author" with
      | some sel => goTrimSpace (childText d sel)
      | none => "" }

/-- The information colly hands the `OnError` callback about a failed
response: the response's HTTP status code together with the request's
current `Retry-Count` header.  The callback registered in
`setupHandlers` (`internal/crawler/spider.go`, lines 164–181) reads
only the header — it contains no branch on the status code or the
content type — so its retry decision is exactly `spiderOnError` applied
to the header. -/
structure ErrorContext where
  statusCode : Nat
  retryHeader : String
deriving DecidableEq, Repr

/-- The `OnError` callback's retry decision on a failed response:
`some newHeader` re-issues the request (after the fixed 2s sleep) with
the updated header, `none` abandons it. -/
def onErrorHandler (ctx : ErrorContext) (retries : Nat) : Option String :=
  spiderOnError ctx.retryHeader retries

/-- A stored record, i.e. one row of the `crawl_data` table
(`internal/storage/database.go`) or one JSON object appended to the
output file (`internal/storage/storage.go`); restricted to the columns
the idempotency claim is about (the remaining columns are carried and
replaced exactly like `title`). -/
structure StoredItem where
  url : String
  title : String
  content : String
deriving DecidableEq, Repr

/-- `DatabaseStorage.Save` (`internal/storage/database.go`, lines
126–181) on the sqlite backend: `INSERT OR REPLACE INTO crawl_data ...`
against a table with `UNIQUE(url)`, which deletes any existing row with
the same `url` and inserts the new row (the mysql branch's
`ON DUPLICATE KEY UPDATE` with `UNIQUE KEY unique_url (url)` has the
same row-level effect). -/
def dbSave (rows : List StoredItem) (item : StoredItem) : List StoredItem :=
  rows.filter (fun r => ¬ r.url = item.url) ++ [item]

/-- `FileStorage.Save` (`internal/storage/storage.go`, lines 88–110):
encode the item and append it to the open JSON output file.  No lookup
of existing records takes place. -/
def fileSave (rows : List StoredItem) (item : StoredItem) : List StoredItem :=
  rows ++ [item]

/-! Concrete fixtures used by the counterexamples and witnesses. -/

/-- A task with two same-domain seed URLs but `maxPages = 1`. -/
def c2Task : CrawlTask where
  id := 1
  name := "two-seed site"
  baseURL := "http://a.com/"
  startURLs := ["http://a.com/p1", "http://a.com/p2"]
  selectors := []
  rules := { maxDepth := 10, maxPages := 1, concurrent := 1, delay := 0 }

/-- A task whose only seed URL lives on a domain different from the
base URL's domain; no domain restriction is configured anywhere (the
run rules carry no allowed- or forbidden-domain fields at all). -/
def c3Task : CrawlTask where
  id := 2
  name := "cross-domain seed"
  baseURL := "http://a.com/"
  startURLs := ["http://b.com/x"]
  selectors := []
  rules := { maxDepth := 10, maxPages := 100, concurrent := 0, delay := 0 }

/-- A task whose seed URL is on the base domain. -/
def c3WTask : CrawlTask where
  id := 3
  name := "same-domain seed"
  baseURL := "http://c.org/"
  startURLs := ["http://c.org/y"]
  selectors := []
  rules := { maxDepth := 1, maxPages := 1, concurrent := 0, delay := 0 }

/-- A task with empty `startURLs` and empty `baseURL` — the input the
spec says must be rejected with a validation error. -/
def c6EmptyTask : CrawlTask where
  id := 0
  name := ""
  baseURL := ""
  startURLs := []
  selectors := []
  rules := { maxDepth := 0, maxPages := 0, concurrent := 0, delay := 0 }

/-- A global spider configuration with the documented defaults. -/
def c6Config : SpiderConfig where
  userAgent := "ua"
  timeout := 30
  concurrent := 5
  delay := 1000
  retries := 3

/-- A spider that is not running and has no collector yet. -/
def c6Idle : SpiderState where
  running := false
  collector := none

/-- A document with a first heading and a description meta tag, but no
`title` element: the generic heuristics the spec describes would find
both values. -/
def c7Doc : HTMLDoc where
  texts := [("h1", "Big Headline")]
  attrs := [(("meta[name='description']", "content"), "A description")]

/-- First item saved for a URL. -/
def c9Item1 : StoredItem where
  url := "http://a.com/x"
  title := "first version"
  content := "old"

/-- Second, later item saved for the same URL. -/
def c9Item2 : StoredItem where
  url := "http://a.com/x"
  title := "second version"
  content := "new"

/-- A spider with a run already in progress. -/
def c10Busy : SpiderState where
  running := true
  collector := none

/-- A global spider configuration for the busy-spider scenario. -/
def c10Config : SpiderConfig where
  userAgent := "ua"
  timeout := 30
  concurrent := 5
  delay := 500
  retries := 3

/-- A well-formed task submitted while another run is in progress. -/
def c10Task : CrawlTask where
  id := 7
  name := "busy"
  baseURL := "http://d.net/"
  startURLs := ["http://d.net/z"]
  selectors := []
  rules := { maxDepth := 2, maxPages := 5, concurrent := 1, delay := 100 }

/-!  Helper lemmas about the dispatch filter. -/

/-- Every dispatched URL was submitted. -/
theorem collyDispatch_mem_reqs (allowed : String) :
    ∀ (reqs visited : List String) (u : String),
      u ∈ collyDispatch allowed reqs visited → u ∈ reqs := by
  intro reqs
  induction reqs with
  | nil => intro visited u h; simp [collyDispatch] at h
  | cons r rs ih =>
    intro visited u h
    rw [collyDispatch] at h
    split at h
    · rcases List.mem_cons.mp h with rfl | hmem
      · exact List.mem_cons_self _ _
      · exact List.mem_cons_of_mem _ (ih _ _ hmem)
    · exact List.mem_cons_of_mem _ (ih _ _ h)

/-- Every dispatched URL passed the `AllowedDomains` check. -/
theorem collyDispatch_mem_domain (allowed : String) :
    ∀ (reqs visited : List String) (u : String),
      u ∈ collyDispatch allowed reqs visited → getDomainFromURL u = allowed := by
  intro reqs
  induction reqs with
  | nil => intro visited u h; simp [collyDispatch] at h
  | cons r rs ih =>
    intro visited u h
    rw [collyDispatch] at h
    split at h
    next hc =>
      rcases List.mem_cons.mp h with rfl | hmem
      · exact hc.1
      · exact ih _ _ hmem
    next => exact ih _ _ h

/-- A URL already in the visited set is never dispatched again. -/
theorem collyDispatch_not_mem_visited (allowed : String) :
    ∀ (reqs visited : List String) (u : String),
      u ∈ collyDispatch allowed reqs visited → u ∉ visited := by
  intro reqs
  induction reqs with
  | nil => intro visited u h; simp [collyDispatch] at h
  | cons r rs ih =>
    intro visited u h
    rw [collyDispatch] at h
    split at h
    next hc =>
      rcases List.mem_cons.mp h with rfl | hmem
      · exact hc.2
      · intro hv
        exact (ih _ _ hmem) (List.mem_cons_of_mem _ hv)
    next => exact ih _ _ h

/-- The dispatch sequence of a run contains no duplicates. -/
theorem collyDispatch_nodup (allowed : String) :
    ∀ (reqs visited : List String), (collyDispatch allowed reqs visited).Nodup := by
  intro reqs
  induction reqs with
  | nil => intro visited; simp [collyDispatch]
  | cons r rs ih =>
    intro visited
    rw [collyDispatch]
    split
    · refine List.nodup_cons.mpr ⟨?_, ih _⟩
      intro hmem
      exact (collyDispatch_not_mem_visited allowed rs (r :: visited) r hmem)
        (List.mem_cons_self _ _)
    · exact ih _

/-- Header values `retryTrace` can reach with `Retries = 5`: starting
unset, the header cycles through `"1"`, `"2"`, `"3"`, `"4"` forever,
because `getRetryCount "4" = 0` resets the parsed count and
`goStringLt "4" "5"` keeps granting a retry. -/
theorem retryTrace_five_cycle (n : Nat) :
    retryTrace 5 n = some "" ∨ retryTrace 5 n = some "1" ∨ retryTrace 5 n = some "2" ∨
      retryTrace 5 n = some "3" ∨ retryTrace 5 n = some "4" := by
  induction n with
  | zero => exact Or.inl rfl
  | succ n ih =>
    rcases ih with h | h | h | h | h <;>
      · simp only [retryTrace, h]
        decide

/-- Helper for C9: rows surviving the delete phase of an upsert cannot
match the inserted URL. -/
theorem filter_url_of_filter_not_url (u : String) :
    ∀ rows : List StoredItem,
      ((rows.filter (fun r => ¬ r.url = u)).filter (fun r => r.url = u)) = [] := by
  intro rows
  induction rows with
  | nil => rfl
  | cons r rs ih =>
    by_cases h : r.url = u <;> simp [List.filter, h, ih]

/-- After any `DatabaseStorage.Save`, exactly the saved item matches
its URL. -/
theorem dbSave_unique (rows : List StoredItem) (i : StoredItem) :
    (dbSave rows i).filter (fun r => r.url = i.url) = [i] := by
  unfold dbSave
  rw [List.filter_append, filter_url_of_filter_not_url]
  simp [List.filter]

/-!  Claim theorems. -/

/-- Claim C1 (code_bug): the claim states that a failing request is
re-attempted at most `maxRetries` times and is abandoned once
`retryCount` reaches the bound.  The code violates this: with
`Spider.Retries = 5` and a request that fails on every attempt, the
`OnError` handler's `Retry-Count` header cycles `"" → "1" → "2" → "3"
→ "4" → "1" → …` — `retryTrace 5 n` is `some` header for every `n`, so
the request is retried on every failure and is never abandoned.  (The
root cause is `getRetryCount` parsing only `"1"`, `"2"`, `"3"` and the
lexicographic string comparison against `fmt.Sprintf("%d", retries)`;
spec §9 itself flags this header encoding as a latent bug.) -/
theorem c1_retry_never_abandoned (n : Nat) : (retryTrace 5 n).isSome = true := by
  rcases retryTrace_five_cycle n with h | h | h | h | h <;> rw [h] <;> rfl

/-- Claim C2 (counterexample): `c2Task` has `maxPages = 1`, yet both of
its seed URLs are dispatched — after the first page is processed
(`processedURLs = 1 = maxPages`) the second URL is still fetched.  The
code never reads `rules.maxPages` (nor `rules.maxDepth`). -/
theorem c2_counterexample :
    c2Task.rules.maxPages = 1 ∧
      runDispatches c2Task = ["http://a.com/p1", "http://a.com/p2"] := by
  decide

/-- Claim C2 (amended): every dispatched URL of a task run is one of the
task's start URLs — the spider follows no links, so every dispatched
entry sits at depth 0 (hence depth ≤ maxDepth for any maxDepth ≥ 0),
while the page budget `maxPages` is never enforced. -/
theorem c2_seeds_only (t : CrawlTask) (u : String) (h : u ∈ runDispatches t) :
    u ∈ t.startURLs :=
  collyDispatch_mem_reqs _ _ _ _ h

/-- Witness for C2: a concrete dispatched URL that is a start URL. -/
theorem c2_seeds_only_witness :
    "http://a.com/p1" ∈ runDispatches c2Task ∧
      "http://a.com/p1" ∈ c2Task.startURLs :=
  ⟨by decide, c2_seeds_only c2Task "http://a.com/p1" (by decide)⟩

/-- Claim C3 (counterexample): `c3Task` configures no domain
restriction (its run rules carry no allowed- or forbidden-domain
fields, i.e. `allowedDomains` is empty), yet its seed
`"http://b.com/x"` is never dispatched, because `setupCollector` always
sets `AllowedDomains` to exactly the base URL's domain — so "empty
allowedDomains = unrestricted" fails. -/
theorem c3_counterexample : runDispatches c3Task = [] := by decide

/-- Claim C3 (amended): dispatch is restricted to exactly the base
URL's domain: every dispatched URL's domain equals
`getDomainFromURL task.BaseURL`, regardless of any allowed- or
forbidden-domain configuration (which the run rules do not carry). -/
theorem c3_base_domain_only (t : CrawlTask) (u : String)
    (h : u ∈ runDispatches t) :
    getDomainFromURL u = getDomainFromURL t.baseURL :=
  collyDispatch_mem_domain _ _ _ _ h

/-- Witness for C3: a dispatched base-domain URL. -/
theorem c3_base_domain_only_witness :
    "http://c.org/y" ∈ runDispatches c3WTask ∧
      getDomainFromURL "http://c.org/y" = getDomainFromURL c3WTask.baseURL :=
  ⟨by decide, c3_base_domain_only c3WTask "http://c.org/y" (by decide)⟩

/-- Claim C4 (confirmed): within one task run, no URL is dispatched
twice: the collector (`AllowURLRevisit = false`) checks and updates its
visited set atomically per submitted URL, so for every task — i.e.
every submission sequence `startURLs`, which also ranges over all
interleavings of concurrent submissions — the dispatched list has no
duplicates. -/
theorem c4_dispatch_at_most_once (t : CrawlTask) : (runDispatches t).Nodup :=
  collyDispatch_nodup _ _ _

/-- Claim C5 (counterexample): an HTTP 404 — a permanent failure in the
spec's taxonomy — is *retried*: on its first failure the `OnError`
handler grants a retry and sets the `Retry-Count` header to `"1"`
(with the default `Retries = 3`), instead of counting the request as
failed immediately. -/
theorem c5_counterexample : onErrorHandler ⟨404, ""⟩ 3 = some "1" := by decide

/-- Claim C5 (amended): the error handler never inspects the status
code or content type: every first failure — 4xx included — is retried
whenever the configured retry bound is at least 1 (stated here for
bounds up to 9), and no failure counter exists anywhere in the run. -/
theorem c5_all_failures_retried (status retries : Nat) (h1 : 1 ≤ retries)
    (h2 : retries ≤ 9) : onErrorHandler ⟨status, ""⟩ retries = some "1" := by
  have h : spiderOnError "" retries = some "1" := by
    interval_cases retries <;> decide
  simpa [onErrorHandler] using h

/-- Witness for C5: a first 410 failure with `Retries = 3` is retried. -/
theorem c5_all_failures_retried_witness :
    1 ≤ 3 ∧ (3 : Nat) ≤ 9 ∧ onErrorHandler ⟨410, ""⟩ 3 = some "1" :=
  ⟨by decide, by decide, c5_all_failures_retried 410 3 (by decide) (by decide)⟩

/-- Claim C6 (counterexample): starting a task whose `startURLs` and
`baseURL` are both empty does not fail fast: `StartWithTask` returns no
error and the spider does enter the running state. -/
theorem c6_counterexample :
    (startWithTask c6Config c6Idle c6EmptyTask).error = none ∧
      (startWithTask c6Config c6Idle c6EmptyTask).enteredRunning = true := by
  decide

/-- Claim C6 (amended): `StartWithTask` performs no validation at all:
for every task — empty seeds and base URL included — a non-running
spider accepts the call, enters the running state, and returns no
error (an empty seed list simply dispatches nothing). -/
theorem c6_no_validation (cfg : SpiderConfig) (s : SpiderState) (t : CrawlTask)
    (h : s.running = false) :
    (startWithTask cfg s t).error = none ∧
      (startWithTask cfg s t).enteredRunning = true := by
  simp [startWithTask, h]

/-- Witness for C6: the empty task is accepted by an idle spider. -/
theorem c6_no_validation_witness :
    c6Idle.running = false ∧
      ((startWithTask c6Config c6Idle c6EmptyTask).error = none ∧
        (startWithTask c6Config c6Idle c6EmptyTask).enteredRunning = true) :=
  ⟨rfl, c6_no_validation c6Config c6Idle c6EmptyTask rfl⟩

/-- Claim C7 (counterexample): `c7Doc` has a first heading
(`h1` = "Big Headline") and a description meta tag, both of which the
claimed heuristic fallback lists would find; yet with no task
selectors, `extractData` leaves the title empty (its only fallback is
the `title` element, which is absent here) and the description empty
(it has no fallback at all). -/
theorem c7_counterexample :
    childText c7Doc "h1" = "Big Headline" ∧
      childAttr c7Doc "meta[name='description']" "content" = "A description" ∧
      (extractData c7Doc []).title = "" ∧
      (extractData c7Doc []).description = "" := by
  decide

/-- Claim C7 (amended): in the extraction used by task runs
(`extractData`), a missing field never fails the item, but the only
fallbacks are: title → the `title` element, content → `body`;
description, keywords and author are extracted solely from a non-empty
task selector and are otherwise left empty, and no publish date is
extracted.  (The full heuristic lists live in `DefaultParser` in
`parser.go`, which ignores task selectors and is not called by the
spider pipeline.) -/
theorem c7_fallbacks_minimal (d : HTMLDoc) :
    (extractData d []).title = goTrimSpace (childText d "title") ∧
      (extractData d []).content = goTrimSpace (childText d "body") ∧
      (extractData d []).description = "" ∧
      (extractData d []).keywords = [] ∧
      (extractData d []).author = "" :=
  ⟨rfl, rfl, rfl, rfl, rfl⟩

/-- Claim C9 (counterexample): saving two items with the same URL
through `FileStorage.Save` leaves *two* records for that URL — the
file backend appends and never supersedes, so `save` is not idempotent
under the same URL. -/
theorem c9_counterexample :
    (fileSave (fileSave [] c9Item1) c9Item2).filter
        (fun r => r.url = "http://a.com/x") = [c9Item1, c9Item2] := by
  decide

/-- Claim C9 (amended): for the database backend, `Save` is idempotent
under the URL: after two saves of items sharing a URL, exactly one
stored record exists for that URL and it carries the later item's
field values (`INSERT OR REPLACE` against `UNIQUE(url)`). -/
theorem c9_db_upsert (rows : List StoredItem) (a b : StoredItem)
    (_h : a.url = b.url) :
    (dbSave (dbSave rows a) b).filter (fun r => r.url = b.url) = [b] :=
  dbSave_unique (dbSave rows a) b

/-- Witness for C9: two concrete same-URL saves into an empty table. -/
theorem c9_db_upsert_witness :
    c9Item1.url = c9Item2.url ∧
      (dbSave (dbSave [] c9Item1) c9Item2).filter
          (fun r => r.url = c9Item2.url) = [c9Item2] :=
  ⟨rfl, c9_db_upsert [] c9Item1 c9Item2 rfl⟩

/-- Claim C10 (confirmed): calling `StartWithTask` while a run is in
progress returns an error immediately and has no side effects: the
spider state (running flag and collector) is returned unchanged, no
URL is dispatched, and the running state is not re-entered. -/
theorem c10_start_while_running_no_effect (cfg : SpiderConfig)
    (s : SpiderState) (t : CrawlTask) (h : s.running = true) :
    (startWithTask cfg s t).error.isSome = true ∧
      (startWithTask cfg s t).state = s ∧
      (startWithTask cfg s t).dispatched = [] ∧
      (startWithTask cfg s t).enteredRunning = false := by
  simp [startWithTask, h]

/-- Witness for C10: a concrete busy spider rejects a second task. -/
theorem c10_start_while_running_no_effect_witness :
    c10Busy.running = true ∧
      ((startWithTask c10Config c10Busy c10Task).error.isSome = true ∧
        (startWithTask c10Config c10Busy c10Task).state = c10Busy ∧
        (startWithTask c10Config c10Busy c10Task).dispatched = [] ∧
        (startWithTask c10Config c10Busy c10Task).enteredRunning = false) :=
  ⟨rfl, c10_start_while_running_no_effect c10Config c10Busy c10Task rfl⟩

end InfoAggeration
